import Mathlib

/-!
Verification of the signal-generation and position-lifecycle engine of the
`system-trading` repository, shallowly embedded in Lean 4.

Conventions of the embedding:
* Python `Decimal` values (prices, sizes, balances) are modelled as exact
  rationals (`ℚ`); the source uses `decimal.Decimal`, whose 28-significant-digit
  context behaves exactly on all the magnitudes appearing here.
* Strategy score arithmetic, done with Python floats in the source, is also
  modelled over `ℚ`; every literal involved (0.25, 0.2, 0.15, 0.6, 0.7, 1.5)
  and every comparison made by the source is far from any rounding boundary,
  so the rational model and the float code agree on all branches taken.
* Enumerations (`OrderSide`) become inductive types; `Exchange` members and
  symbols are modelled as strings.
* Fallible paths return `Option`/`Except` values.
-/

set_option maxRecDepth 4000

namespace SystemTrading

/-- Order side, from `system_trading.data.models.OrderSide` (BUY | SELL). -/
inductive OrderSide
| buy
| sell
deriving DecidableEq, Repr

/-- Position record, fields as in `system_trading.data.models.Position`
(symbol, side, size, entry_price, market_price, unrealized_pnl, exchange,
timestamp). Timestamps are modelled as integers. -/
structure Position where
  symbol : String
  side : OrderSide
  size : ℚ
  entry_price : ℚ
  market_price : ℚ
  unrealized_pnl : ℚ
  exchange : String
  timestamp : ℤ
deriving DecidableEq, Repr

/-- Trade (fill) record, fields as in `system_trading.data.models.Trade`. -/
structure Trade where
  id : String
  order_id : String
  symbol : String
  side : OrderSide
  amount : ℚ
  price : ℚ
  fee : ℚ
  fee_currency : String
  exchange : String
  timestamp : ℤ
deriving DecidableEq, Repr

/-- Balance record, fields as in `system_trading.data.models.Balance`. -/
structure Balance where
  asset : String
  free : ℚ
  locked : ℚ
  total : ℚ
  exchange : String
deriving DecidableEq, Repr

/-- Modelled from the spec: `PortfolioManager.update_position`
(`system_trading/data/portfolio_manager.py` is not under `src/`; only its
tests and callers are). Per spec section 4.2: "upsert by key; if
`position.size == 0`, remove the key instead of storing a zero entry."
This models the value stored at the position map slot keyed by
`(exchange, symbol)`: `none` means the key is absent. -/
def update_position (position : Position) : Option Position :=
  if position.size = 0 then none else some position

/-- Folding one trade into the position slot for its `(exchange, symbol)` key,
from `TradingEngine._process_trade_for_position`
(`trading_engine.py` lines 426-511). The input `st` is the slot before the
trade (`get_position` result); the output is the slot afterwards, going
through `update_position`, exactly as the source does. -/
def process_trade_for_position (st : Option Position) (t : Trade) : Option Position :=
  match st with
  | some existing_position =>
    if t.side = existing_position.side then
      -- Adding to position
      let total_size := existing_position.size + t.amount
      -- Calculate weighted average entry price
      let total_value := existing_position.size * existing_position.entry_price +
        t.amount * t.price
      let avg_entry_price := if 0 < total_size then total_value / total_size else t.price
      update_position
        { symbol := t.symbol, side := existing_position.side, size := total_size,
          entry_price := avg_entry_price, market_price := t.price,
          unrealized_pnl := 0, exchange := t.exchange, timestamp := t.timestamp }
    else
      -- Reducing position (opposite side)
      let new_size := existing_position.size - t.amount
      if new_size ≤ 0 then
        if new_size < 0 then
          -- Position reversed
          update_position
            { symbol := t.symbol, side := t.side, size := |new_size|,
              entry_price := t.price, market_price := t.price,
              unrealized_pnl := 0, exchange := t.exchange, timestamp := t.timestamp }
        else
          -- Position closed - will be removed by update_position
          update_position
            { symbol := t.symbol, side := existing_position.side, size := 0,
              entry_price := existing_position.entry_price, market_price := t.price,
              unrealized_pnl := 0, exchange := t.exchange, timestamp := t.timestamp }
      else
        -- Partial close
        update_position
          { symbol := t.symbol, side := existing_position.side, size := new_size,
            entry_price := existing_position.entry_price, market_price := t.price,
            unrealized_pnl := 0, exchange := t.exchange, timestamp := t.timestamp }
  | none =>
    -- Create new position
    update_position
      { symbol := t.symbol, side := t.side, size := t.amount,
        entry_price := t.price, market_price := t.price,
        unrealized_pnl := 0, exchange := t.exchange, timestamp := t.timestamp }

/-- Modelled from the spec: the quote asset of a `"BASE/QUOTE"` symbol, used
by `PortfolioManager.calculate_position_size` (module not under `src/`); the
test suite pairs symbol `"BTC/USDT"` with a `"USDT"` balance. -/
def quote_asset (symbol : String) : String :=
  String.mk ((symbol.toList.dropWhile (fun c => c ≠ '/')).drop 1)

/-- Modelled from the spec: `PortfolioManager.get_balance` — lookup of the
balance record keyed by `(exchange, asset)`; "not found" is an explicit
`none`, never an error (spec section 4.2 failure semantics). -/
def get_balance (balances : List Balance) (asset : String) (exchange : String) :
    Option Balance :=
  balances.find? (fun b => b.asset == asset && b.exchange == exchange)

/-- Modelled from the spec: `PortfolioManager.calculate_position_size`
(module not under `src/`). Spec section 4.2: size = (available quote-currency
balance × risk_percentage × signal_strength) / current_price; returns exactly
zero when no balance is found for the relevant quote asset — never raises.
The default `risk_percentage` is 0.02 and default `signal_strength` is 1.0;
both are passed explicitly here. -/
def calculate_position_size (balances : List Balance) (symbol : String)
    (exchange : String) (current_price : ℚ) (signal_strength : ℚ)
    (risk_percentage : ℚ) : ℚ :=
  match get_balance balances (quote_asset symbol) exchange with
  | none => 0
  | some b => b.free * risk_percentage * signal_strength / current_price

/-- Configured parameters of `EnhancedMAStrategy.__init__`
(`enhanced_ma_strategy.py`), with the source's defaults in
`defaultMAParams`. -/
structure MAParams where
  fast_ema : ℕ
  slow_ema : ℕ
  signal_ema : ℕ
  rsi_period : ℕ
  atr_period : ℕ
  rsi_oversold : ℚ
  rsi_overbought : ℚ
  volume_threshold : ℚ
  min_confidence : ℚ
deriving DecidableEq, Repr

/-- Default parameters of `EnhancedMAStrategy` (12, 26, 9, 14, 14, 30, 70,
1.5, 0.6). -/
def defaultMAParams : MAParams :=
  { fast_ema := 12, slow_ema := 26, signal_ema := 9, rsi_period := 14,
    atr_period := 14, rsi_oversold := 30, rsi_overbought := 70,
    volume_threshold := 3/2, min_confidence := 3/5 }

/-- Snapshot of the indicator values produced by
`EnhancedMAStrategy._calculate_indicators` for the last bar. The numeric
pipeline producing them (pandas_ta EMA/MACD/RSI/ATR/Bollinger) is kept
abstract: the gating logic under verification is a pure function of this
record. The source's `volume_ratio` entry is named `volume_rel` here.
`bb_squeeze`/`bb_expansion`, computed only for the metadata dictionary and
never read by any decision, are omitted. -/
structure Indicators where
  fast_ema : ℚ
  slow_ema : ℚ
  macd : ℚ
  macd_signal : ℚ
  macd_histogram : ℚ
  rsi : ℚ
  atr : ℚ
  volume_rel : ℚ
  bb_upper : ℚ
  bb_middle : ℚ
  bb_lower : ℚ
  support : ℚ
  resistance : ℚ
deriving DecidableEq, Repr

/-- The primary signal labels of `_analyze_signals`. -/
inductive SignalKind
| bullish
| bearish
| neutral
deriving DecidableEq, Repr

/-- Bullish score of `EnhancedMAStrategy._analyze_signals` (lines 203-214):
MACD cross +0.25, EMA trend +0.25, RSI oversold-or-(neutral 40-60 and
EMA-aligned) +0.20, volume spike +0.15, price above support +0.15. -/
def ma_bullish_score (p : MAParams) (ind : Indicators) (current_price : ℚ) : ℚ :=
  (if ind.macd > ind.macd_signal ∧ ind.macd_histogram > 0 then (1/4 : ℚ) else 0) +
  (if ind.fast_ema > ind.slow_ema then 1/4 else 0) +
  (if ind.rsi < p.rsi_oversold ∨
      (40 ≤ ind.rsi ∧ ind.rsi ≤ 60 ∧ ind.fast_ema > ind.slow_ema) then 1/5 else 0) +
  (if ind.volume_rel > p.volume_threshold then 3/20 else 0) +
  (if current_price > ind.support then 3/20 else 0)

/-- Bearish score of `EnhancedMAStrategy._analyze_signals` (lines 216-227). -/
def ma_bearish_score (p : MAParams) (ind : Indicators) (current_price : ℚ) : ℚ :=
  (if ind.macd < ind.macd_signal ∧ ind.macd_histogram < 0 then (1/4 : ℚ) else 0) +
  (if ind.fast_ema < ind.slow_ema then 1/4 else 0) +
  (if ind.rsi > p.rsi_overbought ∨
      (40 ≤ ind.rsi ∧ ind.rsi ≤ 60 ∧ ind.fast_ema < ind.slow_ema) then 1/5 else 0) +
  (if ind.volume_rel > p.volume_threshold then 3/20 else 0) +
  (if current_price < ind.resistance then 3/20 else 0)

/-- Primary signal and signal strength of `_analyze_signals` (lines 229-244):
whichever score exceeds the other and exceeds `min_confidence`; otherwise
neutral with strength `max bullish bearish`. -/
def ma_primary_signal (p : MAParams) (ind : Indicators) (current_price : ℚ) :
    SignalKind × ℚ :=
  let b := ma_bullish_score p ind current_price
  let r := ma_bearish_score p ind current_price
  if b > r ∧ b > p.min_confidence then (SignalKind.bullish, b)
  else if r > b ∧ r > p.min_confidence then (SignalKind.bearish, r)
  else (SignalKind.neutral, max b r)

/-- The seven boolean conditions of `EnhancedMAStrategy.should_buy`
(lines 273-286), in source order. -/
def ma_buy_conditions (p : MAParams) (ind : Indicators) (current_price : ℚ) :
    List Bool :=
  [decide (ind.macd > ind.macd_signal),
   decide (ind.macd_histogram > 0),
   decide (ind.fast_ema > ind.slow_ema),
   decide (ind.rsi < p.rsi_overbought),
   decide (current_price > ind.support),
   decide ((ma_primary_signal p ind current_price).1 = SignalKind.bullish),
   decide ((ma_primary_signal p ind current_price).2 > p.min_confidence)]

/-- `EnhancedMAStrategy.should_buy` (line 289): at least 60 percent of the
seven conditions must hold (`sum(conditions) >= len(conditions) * 0.6`). -/
def ma_should_buy (p : MAParams) (ind : Indicators) (current_price : ℚ) : Bool :=
  let c := ma_buy_conditions p ind current_price
  decide ((c.count true : ℚ) ≥ (c.length : ℚ) * (3/5))

/-- The seven boolean conditions of `EnhancedMAStrategy.should_sell`
(lines 302-315), in source order. -/
def ma_sell_conditions (p : MAParams) (ind : Indicators) (current_price : ℚ) :
    List Bool :=
  [decide (ind.macd < ind.macd_signal),
   decide (ind.macd_histogram < 0),
   decide (ind.fast_ema < ind.slow_ema),
   decide (ind.rsi > p.rsi_oversold),
   decide (current_price < ind.resistance),
   decide ((ma_primary_signal p ind current_price).1 = SignalKind.bearish),
   decide ((ma_primary_signal p ind current_price).2 > p.min_confidence)]

/-- `EnhancedMAStrategy.should_sell` (line 318). -/
def ma_should_sell (p : MAParams) (ind : Indicators) (current_price : ℚ) : Bool :=
  let c := ma_sell_conditions p ind current_price
  decide ((c.count true : ℚ) ≥ (c.length : ℚ) * (3/5))

/-- The fields of a successful `EnhancedMAStrategy.analyze` result that are
read downstream by `generate_signal`. -/
structure MAAnalysisOk where
  buy_signal : Bool
  sell_signal : Bool
  signal : SignalKind
  signal_strength : ℚ
  bullish_score : ℚ
  bearish_score : ℚ
deriving DecidableEq, Repr

/-- The successful-analysis record assembled by `EnhancedMAStrategy.analyze`
(lines 81-98) on sufficient data, as a function of the indicator snapshot
and the last close. -/
def ma_full_analysis (p : MAParams) (ind : Indicators) (current_price : ℚ) :
    MAAnalysisOk :=
  { buy_signal := ma_should_buy p ind current_price,
    sell_signal := ma_should_sell p ind current_price,
    signal := (ma_primary_signal p ind current_price).1,
    signal_strength := (ma_primary_signal p ind current_price).2,
    bullish_score := ma_bullish_score p ind current_price,
    bearish_score := ma_bearish_score p ind current_price }

/-- `required_periods` of `EnhancedMAStrategy.analyze` (lines 68-72):
`max(slow_ema, rsi_period, atr_period)`. -/
def ma_required_periods (p : MAParams) : ℕ :=
  max p.slow_ema (max p.rsi_period p.atr_period)

/-- The explicit insufficient-data marker returned by both strategies:
the error dictionary carrying `required_periods` and `available_periods`. -/
structure InsufficientData where
  required_periods : ℕ
  available_periods : ℕ
deriving DecidableEq, Repr

/-- `EnhancedMAStrategy.analyze` guard (lines 74-79): with fewer than
`required_periods + 10` bars the insufficient-data marker is returned before
any indicator is computed; otherwise the full analysis (whose numeric content
is abstracted by the `full` argument) is returned. -/
def ma_analyze (p : MAParams) (data_len : ℕ) (full : MAAnalysisOk) :
    Except InsufficientData MAAnalysisOk :=
  if data_len < ma_required_periods p + 10 then
    Except.error { required_periods := ma_required_periods p + 10,
                   available_periods := data_len }
  else Except.ok full

/-- The directional content of a generated `TradingSignal`: side,
strength, confidence. -/
structure GenSignal where
  side : OrderSide
  strength : ℚ
  confidence : ℚ
deriving DecidableEq, Repr

/-- The dispatch of `EnhancedMAStrategy.generate_signal` (lines 334-367) on a
successful analysis: BUY if `buy_signal`, else SELL if `sell_signal`, else
none; strength is `signal_strength`, confidence the matching score. -/
def ma_signal_of_ok (a : MAAnalysisOk) : Option GenSignal :=
  if a.buy_signal then
    some { side := OrderSide.buy, strength := a.signal_strength,
           confidence := a.bullish_score }
  else if a.sell_signal then
    some { side := OrderSide.sell, strength := a.signal_strength,
           confidence := a.bearish_score }
  else none

/-- `EnhancedMAStrategy.generate_signal` (lines 324-371): none when analyze
reports the insufficient-data error, otherwise `ma_signal_of_ok`. -/
def ma_generate_signal (p : MAParams) (data_len : ℕ) (full : MAAnalysisOk) :
    Option GenSignal :=
  match ma_analyze p data_len full with
  | Except.error _ => none
  | Except.ok a => ma_signal_of_ok a

/-- Configured parameters of `RSIStrategy.__init__` (`rsi_strategy.py`),
with the source's defaults in `defaultRSIParams`. -/
structure RSIParams where
  rsi_period : ℕ
  trend_ema_period : ℕ
  divergence_lookback : ℕ
  min_divergence_bars : ℕ
  oversold_level : ℚ
  overbought_level : ℚ
  volume_confirmation : Bool
deriving DecidableEq, Repr

/-- Default parameters of `RSIStrategy` (14, 50, 10, 5, 30, 70, True). -/
def defaultRSIParams : RSIParams :=
  { rsi_period := 14, trend_ema_period := 50, divergence_lookback := 10,
    min_divergence_bars := 5, oversold_level := 30, overbought_level := 70,
    volume_confirmation := true }

/-- `required_periods` of `RSIStrategy.analyze` (lines 62-69):
`max(rsi_period, trend_ema_period, divergence_lookback) + 10`. -/
def rsi_required_periods (q : RSIParams) : ℕ :=
  max q.rsi_period (max q.trend_ema_period q.divergence_lookback) + 10

/-- The fields of a successful `RSIStrategy.analyze` result read downstream
by `generate_signal`. -/
structure RSIAnalysisOk where
  buy_signal : Bool
  sell_signal : Bool
  signal_strength : ℚ
deriving DecidableEq, Repr

/-- `RSIStrategy.analyze` guard (lines 71-76): with fewer than
`required_periods` bars the insufficient-data marker is returned before any
indicator is computed. -/
def rsi_analyze (q : RSIParams) (data_len : ℕ) (full : RSIAnalysisOk) :
    Except InsufficientData RSIAnalysisOk :=
  if data_len < rsi_required_periods q then
    Except.error { required_periods := rsi_required_periods q,
                   available_periods := data_len }
  else Except.ok full

/-- The dispatch of `RSIStrategy.generate_signal` (lines 352-383) on a
successful analysis; confidence is `min(signal_strength + 0.1, 1.0)`. -/
def rsi_signal_of_ok (a : RSIAnalysisOk) : Option GenSignal :=
  if a.buy_signal then
    some { side := OrderSide.buy, strength := a.signal_strength,
           confidence := min (a.signal_strength + 1/10) 1 }
  else if a.sell_signal then
    some { side := OrderSide.sell, strength := a.signal_strength,
           confidence := min (a.signal_strength + 1/10) 1 }
  else none

/-- `RSIStrategy.generate_signal` (lines 342-387): none when analyze reports
the insufficient-data error, otherwise `rsi_signal_of_ok`. -/
def rsi_generate_signal (q : RSIParams) (data_len : ℕ) (full : RSIAnalysisOk) :
    Option GenSignal :=
  match rsi_analyze q data_len full with
  | Except.error _ => none
  | Except.ok a => rsi_signal_of_ok a

/-- pandas `Series.tail(n)`: the last `n` elements (all of them when the
series is shorter). -/
def tailN (n : ℕ) (xs : List ℚ) : List ℚ :=
  xs.drop (xs.length - n)

/-- The 5-point local-minimum test of `_detect_bullish_divergence`
(lines 152-158): element `i` strictly below both neighbours on each side.
Out-of-range reads cannot occur at the call sites, which restrict `i` to
`[2, length - 2)`; `getD` with default 0 mirrors in-bounds `iloc`. -/
def isLocalMin (xs : List ℚ) (i : ℕ) : Bool :=
  decide (xs.getD i 0 < xs.getD (i - 1) 0) &&
  decide (xs.getD i 0 < xs.getD (i - 2) 0) &&
  decide (xs.getD i 0 < xs.getD (i + 1) 0) &&
  decide (xs.getD i 0 < xs.getD (i + 2) 0)

/-- The 5-point local-maximum test of `_detect_bearish_divergence`
(lines 201-207). -/
def isLocalMax (xs : List ℚ) (i : ℕ) : Bool :=
  decide (xs.getD i 0 > xs.getD (i - 1) 0) &&
  decide (xs.getD i 0 > xs.getD (i - 2) 0) &&
  decide (xs.getD i 0 > xs.getD (i + 1) 0) &&
  decide (xs.getD i 0 > xs.getD (i + 2) 0)

/-- The list of local-low values collected by the
`for i in range(2, len - 2)` loop of `_detect_bullish_divergence`,
in index order (most recent last). -/
def localLows (xs : List ℚ) : List ℚ :=
  ((List.range xs.length).filter
    (fun i => decide (2 ≤ i) && decide (i + 2 < xs.length) && isLocalMin xs i)).map
    (fun i => xs.getD i 0)

/-- The list of local-high values collected by `_detect_bearish_divergence`,
in index order (most recent last). -/
def localHighs (xs : List ℚ) : List ℚ :=
  ((List.range xs.length).filter
    (fun i => decide (2 ≤ i) && decide (i + 2 < xs.length) && isLocalMax xs i)).map
    (fun i => xs.getD i 0)

/-- `RSIStrategy._detect_bullish_divergence` (lines 135-182): false when the
whole series is shorter than `divergence_lookback + min_divergence_bars`;
otherwise compare the two most recent local lows of price and RSI within the
last `divergence_lookback` bars; false when either series has fewer than two
local lows there. -/
def detect_bullish_divergence (q : RSIParams) (closes : List ℚ) (rsi : List ℚ) :
    Bool :=
  if closes.length < q.divergence_lookback + q.min_divergence_bars then false
  else
    let recent_prices := tailN q.divergence_lookback closes
    let recent_rsi := tailN q.divergence_lookback rsi
    let price_lows := localLows recent_prices
    let rsi_lows := localLows recent_rsi
    if 2 ≤ price_lows.length ∧ 2 ≤ rsi_lows.length then
      decide (price_lows.getD (price_lows.length - 1) 0 <
        price_lows.getD (price_lows.length - 2) 0) &&
      decide (rsi_lows.getD (rsi_lows.length - 1) 0 >
        rsi_lows.getD (rsi_lows.length - 2) 0)
    else false

/-- `RSIStrategy._detect_bearish_divergence` (lines 184-231). -/
def detect_bearish_divergence (q : RSIParams) (closes : List ℚ) (rsi : List ℚ) :
    Bool :=
  if closes.length < q.divergence_lookback + q.min_divergence_bars then false
  else
    let recent_prices := tailN q.divergence_lookback closes
    let recent_rsi := tailN q.divergence_lookback rsi
    let price_highs := localHighs recent_prices
    let rsi_highs := localHighs recent_rsi
    if 2 ≤ price_highs.length ∧ 2 ≤ rsi_highs.length then
      decide (price_highs.getD (price_highs.length - 1) 0 >
        price_highs.getD (price_highs.length - 2) 0) &&
      decide (rsi_highs.getD (rsi_highs.length - 1) 0 <
        rsi_highs.getD (rsi_highs.length - 2) 0)
    else false

/-- Last entry of pandas `ta.sma(xs, length=n)`: the mean of the last `n`
values when at least `n` are present, `none` (NaN) otherwise. -/
def sma_last (n : ℕ) (xs : List ℚ) : Option ℚ :=
  if xs.length < n then none else some ((tailN n xs).sum / n)

/-- `RSIStrategy._analyze_volume` (lines 233-253): relative volume
`current / average` guarded by `if avg_volume > 0 else 1.0`, and the
spike flag `> 1.5`. A NaN average (fewer than 20 bars, `none` here) fails
the `> 0` comparison in the source, also yielding the neutral 1.0. The
source's `ratio` entry is the first component here. -/
def rsi_volume_info (volumes : List ℚ) : ℚ × Bool :=
  let current_volume := volumes.getLastD 0
  let rel :=
    match sma_last 20 volumes with
    | some a => if a > 0 then current_volume / a else 1
    | none => 1
  (rel, decide (rel > 3/2))

/-- Last entry of the `volume_ratio` series of
`EnhancedMAStrategy._calculate_indicators` (line 131): the unguarded pandas
division `volume / sma(volume, 20)`. `none` models a non-finite result: NaN
when the average is NaN, and inf/NaN from division by a zero average —
pandas elementwise division by zero does not raise, it produces a
non-finite float. -/
def ma_volume_rel (volumes : List ℚ) : Option ℚ :=
  match sma_last 20 volumes with
  | none => none
  | some a => if a = 0 then none else some (volumes.getLastD 0 / a)

/-- A trading signal as consumed by the engine
(`system_trading.data.models.TradingSignal`): symbol, side, strength,
confidence. Strategy name and metadata play no role in the verified
engine logic and are omitted. -/
structure TradingSignal where
  symbol : String
  side : OrderSide
  strength : ℚ
  confidence : ℚ
deriving DecidableEq, Repr

/-- The projection of an `Order` used by `_filter_signals`: only the symbol
of each in-flight order (a value of `self.active_orders`) is read, plus the
count of such orders. -/
structure EngineOrder where
  id : String
  symbol : String
deriving DecidableEq, Repr

/-- The sort key of `_filter_signals` (line 235):
`s.confidence * s.strength`. -/
def signal_key (s : TradingSignal) : ℚ := s.confidence * s.strength

/-- The descending-by-key order used by `_filter_signals`
(`sort(key=..., reverse=True)`): `a` precedes `b` when the key of `b` is at
most the key of `a`. -/
def signal_le (a b : TradingSignal) : Prop := signal_key b ≤ signal_key a

instance (a b : TradingSignal) : Decidable (signal_le a b) :=
  inferInstanceAs (Decidable (signal_key b ≤ signal_key a))

instance : IsTotal TradingSignal signal_le :=
  ⟨fun a b => le_total (signal_key b) (signal_key a)⟩

instance : IsTrans TradingSignal signal_le :=
  ⟨fun _ _ _ h1 h2 => le_trans h2 h1⟩

/-- `TradingEngine._filter_signals` (lines 228-239): drop signals whose
symbol has an in-flight order, stable-sort the rest by
`confidence * strength` descending (Python's stable sort with a reversed
comparison is modelled by the stable `insertionSort` under `signal_le`), and
keep at most `max(0, max_concurrent_orders - len(active_orders))` of them
(truncated `ℕ` subtraction is exactly that `max`). -/
def filter_signals (active_orders : List EngineOrder) (max_concurrent_orders : ℕ)
    (signals : List TradingSignal) : List TradingSignal :=
  let symbols_with_orders := active_orders.map (fun o => o.symbol)
  let filtered := signals.filter (fun s => decide (s.symbol ∉ symbols_with_orders))
  let sorted := List.insertionSort signal_le filtered
  sorted.take (max_concurrent_orders - active_orders.length)

/-- The action `_handle_existing_position` can take this cycle. -/
inductive EngineAction
| closePosition
| noAction
deriving DecidableEq, Repr

/-- `TradingEngine._handle_existing_position` (lines 277-290): when the
signal direction opposes the existing position, place a closing market order
only if `signal.confidence > 0.7`; in every other case nothing is done and
the position is untouched. -/
def handle_existing_position (signal : TradingSignal) (position : Position) :
    EngineAction :=
  if (position.side = OrderSide.buy ∧ signal.side = OrderSide.sell) ∨
     (position.side = OrderSide.sell ∧ signal.side = OrderSide.buy) then
    if signal.confidence > 7/10 then EngineAction.closePosition
    else EngineAction.noAction
  else EngineAction.noAction

/-- Outcome of one iteration body of `_trading_loop` (signal generation,
signal processing, order update, portfolio update): normal completion or a
raised exception with its message. -/
inductive IterOutcome
| ok
| err (msg : String)

/-- The iteration body seen as a fallible computation: `err` models an
exception escaping `_generate_signals` / `_process_signals` /
`_update_orders` / `_update_portfolio`. -/
def iteration_result (o : IterOutcome) : Except String Unit :=
  match o with
  | IterOutcome.ok => Except.ok ()
  | IterOutcome.err m => Except.error m

/-- `TradingEngine._trading_loop` (lines 128-151), fuel-bounded. `running k`
is the value of `self.is_running` observed at the start of iteration `k`;
`outcomes k` is what iteration `k`'s body does. Both the `try` tail and the
`except` handler sleep for the update interval and re-enter the loop, which
is exactly how the source is written. Returns the number of iterations
executed and whether the loop exited through the `is_running` check (`false`
means the fuel ran out, modelling a still-running loop). -/
def trading_loop : ℕ → (ℕ → Bool) → (ℕ → IterOutcome) → ℕ × Bool
  | 0, _, _ => (0, false)
  | fuel + 1, running, outcomes =>
    if running 0 then
      let rest :=
        match iteration_result (outcomes 0) with
        | Except.ok _ =>
          trading_loop fuel (fun k => running (k + 1)) (fun k => outcomes (k + 1))
        | Except.error _ =>
          trading_loop fuel (fun k => running (k + 1)) (fun k => outcomes (k + 1))
      (rest.1 + 1, rest.2)
    else (0, true)

/-- The names bound at module level in
`system_trading/engine/trading_engine.py` (lines 1-24): the four plain
imports, the names imported from `system_trading.data.models`,
`PortfolioManager`, `UnifiedExchangeClient`, `BaseStrategy`, the module
logger, and the class itself. -/
def trading_engine_module_names : List String :=
  ["asyncio", "logging", "datetime", "Any",
   "Exchange", "Order", "OrderSide", "OrderStatus", "OrderType", "Position",
   "TradingSignal", "PortfolioManager", "UnifiedExchangeClient", "BaseStrategy",
   "logger", "TradingEngine"]

/-- The non-builtin global names referenced by the body of
`_process_trade_for_position` (lines 426-511): `Position` and `Decimal` in
the constructed records, `logger` in the handler. (`abs` is a builtin; the
parameter Trade is reached only through the line-426 annotation.) -/
def process_trade_body_globals : List String :=
  ["Position", "Decimal", "logger"]

/-- Whether CPython can resolve every listed global against the module's
bindings. -/
def resolves_in_module (names : List String) : Bool :=
  names.all (fun n => trading_engine_module_names.contains n)

/-- `_process_trade_for_position` as it actually executes: the first
unresolvable global reference in the body raises `NameError` before
`update_position` is ever called, and the `except Exception` handler at
line 510 swallows it, leaving the position slot unchanged. When every
global resolves, the fold proceeds as `process_trade_for_position`. -/
def process_trade_runtime (st : Option Position) (t : Trade) : Option Position :=
  if resolves_in_module process_trade_body_globals then
    process_trade_for_position st t
  else st

/-- C1: folding a trade into the position slot follows the position-lifecycle
rule: a same-side fill sums the sizes and takes the notional-weighted average
entry price; an opposite-side fill smaller than the position reduces the size
and keeps the entry price; one equal to the position removes it; one larger
flips the position to the fill's side with the excess as size and the fill
price as entry price; a fill with no existing position creates one with the
fill's side, amount and price. -/
theorem c1_position_lifecycle (p : Position) (t : Trade)
    (hp : 0 < p.size) (ht : 0 < t.amount) :
    (t.side = p.side →
      ∃ q, process_trade_for_position (some p) t = some q ∧
        q.side = p.side ∧ q.size = p.size + t.amount ∧
        q.entry_price = (p.size * p.entry_price + t.amount * t.price) /
          (p.size + t.amount)) ∧
    (t.side ≠ p.side → t.amount < p.size →
      ∃ q, process_trade_for_position (some p) t = some q ∧
        q.side = p.side ∧ q.size = p.size - t.amount ∧
        q.entry_price = p.entry_price) ∧
    (t.side ≠ p.side → t.amount = p.size →
      process_trade_for_position (some p) t = none) ∧
    (t.side ≠ p.side → p.size < t.amount →
      ∃ q, process_trade_for_position (some p) t = some q ∧
        q.side = t.side ∧ q.size = t.amount - p.size ∧
        q.entry_price = t.price) ∧
    (∃ q, process_trade_for_position none t = some q ∧
      q.side = t.side ∧ q.size = t.amount ∧ q.entry_price = t.price) := by
  refine ⟨?_, ?_, ?_, ?_, ?_⟩
  · intro hs
    have htot : (0 : ℚ) < p.size + t.amount := by linarith
    refine ⟨{ symbol := t.symbol, side := p.side, size := p.size + t.amount,
              entry_price := (p.size * p.entry_price + t.amount * t.price) /
                (p.size + t.amount),
              market_price := t.price, unrealized_pnl := 0,
              exchange := t.exchange, timestamp := t.timestamp },
            ?_, rfl, rfl, rfl⟩
    simp [process_trade_for_position, update_position, hs, htot, htot.ne']
  · intro hs hlt
    have hpos : (0 : ℚ) < p.size - t.amount := by linarith
    refine ⟨{ symbol := t.symbol, side := p.side, size := p.size - t.amount,
              entry_price := p.entry_price, market_price := t.price,
              unrealized_pnl := 0, exchange := t.exchange,
              timestamp := t.timestamp }, ?_, rfl, rfl, rfl⟩
    simp [process_trade_for_position, update_position, hs, not_le.mpr hpos,
      hpos.ne']
  · intro hs heq
    have hz : p.size - t.amount = 0 := by rw [heq]; ring
    simp [process_trade_for_position, update_position, hs, hz]
  · intro hs hgt
    have hneg : p.size - t.amount < 0 := by linarith
    have habs : |p.size - t.amount| = t.amount - p.size := by
      rw [abs_of_neg hneg]; ring
    have hne : t.amount - p.size ≠ 0 := sub_ne_zero.mpr (ne_of_gt hgt)
    refine ⟨{ symbol := t.symbol, side := t.side, size := t.amount - p.size,
              entry_price := t.price, market_price := t.price,
              unrealized_pnl := 0, exchange := t.exchange,
              timestamp := t.timestamp }, ?_, rfl, rfl, rfl⟩
    simp [process_trade_for_position, update_position, hs, hneg.le, hneg,
      habs, hne]
  · refine ⟨{ symbol := t.symbol, side := t.side, size := t.amount,
              entry_price := t.price, market_price := t.price,
              unrealized_pnl := 0, exchange := t.exchange,
              timestamp := t.timestamp }, ?_, rfl, rfl, rfl⟩
    simp [process_trade_for_position, update_position, ht.ne']

/-- Witness for C1 at the spec's example: long 0.1 BTC at 50000, a same-side
buy fill of 0.1 at 52000 gives size 0.2 and entry price 51000. -/
theorem c1_position_lifecycle_witness :
    ∃ q, process_trade_for_position
        (some { symbol := "BTC/USDT", side := OrderSide.buy, size := 1/10,
                entry_price := 50000, market_price := 50000,
                unrealized_pnl := 0, exchange := "binance", timestamp := 0 })
        { id := "t2", order_id := "o2", symbol := "BTC/USDT",
          side := OrderSide.buy, amount := 1/10, price := 52000, fee := 0,
          fee_currency := "USDT", exchange := "binance", timestamp := 1 }
        = some q ∧
      q.side = OrderSide.buy ∧ q.size = 1/5 ∧ q.entry_price = 51000 := by
  obtain ⟨q, hq, h1, h2, h3⟩ :=
    (c1_position_lifecycle
      { symbol := "BTC/USDT", side := OrderSide.buy, size := 1/10,
        entry_price := 50000, market_price := 50000,
        unrealized_pnl := 0, exchange := "binance", timestamp := 0 }
      { id := "t2", order_id := "o2", symbol := "BTC/USDT",
        side := OrderSide.buy, amount := 1/10, price := 52000, fee := 0,
        fee_currency := "USDT", exchange := "binance", timestamp := 1 }
      (by norm_num) (by norm_num)).1 rfl
  refine ⟨q, hq, h1, ?_, ?_⟩
  · rw [h2]; norm_num
  · rw [h3]; norm_num

/-- The 10000-USDT balance record of
`test_calculate_position_size` (`test_portfolio_manager.py` lines 162-189). -/
def usdt_example_balance : Balance :=
  { asset := "USDT", free := 10000, locked := 0, total := 10000,
    exchange := "binance" }

/-- C2: `calculate_position_size` returns
free quote balance × risk_percentage × signal_strength / current_price when a
balance record for the quote asset exists, and exactly zero (total function,
nothing raised) when none exists; in particular free balance 10000, risk
0.02, strength 1, price 50000 gives exactly 0.004 (= 1/250). -/
theorem c2_position_size :
    (∀ (balances : List Balance) (symbol exchange : String)
       (current_price signal_strength risk_percentage : ℚ) (b : Balance),
      (get_balance balances (quote_asset symbol) exchange = some b →
        calculate_position_size balances symbol exchange current_price
          signal_strength risk_percentage =
          b.free * risk_percentage * signal_strength / current_price) ∧
      (get_balance balances (quote_asset symbol) exchange = none →
        calculate_position_size balances symbol exchange current_price
          signal_strength risk_percentage = 0)) ∧
    calculate_position_size [usdt_example_balance]
      "BTC/USDT" "binance" 50000 1 (1/50) = 1/250 := by
  constructor
  · intro balances symbol exchange current_price signal_strength risk_percentage b
    constructor
    · intro h; unfold calculate_position_size; rw [h]
    · intro h; unfold calculate_position_size; rw [h]
  · have h : get_balance [usdt_example_balance] (quote_asset "BTC/USDT")
        "binance" = some usdt_example_balance := rfl
    unfold calculate_position_size
    rw [h]
    norm_num [usdt_example_balance]

/-- Witness for C2: both branches at concrete inputs — the populated-balance
branch on the 10000 USDT record, and the empty-balance branch. -/
theorem c2_position_size_witness :
    calculate_position_size [usdt_example_balance]
      "BTC/USDT" "binance" 50000 1 (1/50) =
      usdt_example_balance.free * (1/50) * 1 / 50000 ∧
    calculate_position_size [] "BTC/USDT" "binance" 50000 1 (1/50) = 0 := by
  constructor
  · exact (c2_position_size.1 [usdt_example_balance]
      "BTC/USDT" "binance" 50000 1 (1/50) usdt_example_balance).1 rfl
  · exact (c2_position_size.1 [] "BTC/USDT" "binance" 50000 1 (1/50)
      usdt_example_balance).2 rfl

/-- An indicator snapshot on which the two gates of the trend-confluence
strategy disagree: the MACD lines have crossed bullishly below zero while the
fast EMA is still under the slow EMA, RSI is neutral at 50, volume is spiked,
and price sits between support and resistance. Five of the seven
`should_buy` conditions hold, but the score rubric is bearish
(bullish 0.55, bearish 0.75). -/
def gate_cex_indicators : Indicators :=
  { fast_ema := 100, slow_ema := 101, macd := -1, macd_signal := -2,
    macd_histogram := 1, rsi := 50, atr := 1, volume_rel := 2,
    bb_upper := 110, bb_middle := 100, bb_lower := 90,
    support := 100, resistance := 110 }

/-- Counterexample to C3 as stated: at `gate_cex_indicators` with the default
parameters and last close 105, `generate_signal` returns a BUY signal
(strength 0.75, confidence 0.55) even though the primary signal of the score
gate is `bearish`, not `bullish` — the two gates need not agree. -/
theorem c3_two_gate_cex :
    ma_generate_signal defaultMAParams 200
        (ma_full_analysis defaultMAParams gate_cex_indicators 105) =
      some { side := OrderSide.buy, strength := 3/4, confidence := 11/20 } ∧
    (ma_primary_signal defaultMAParams gate_cex_indicators 105).1 =
      SignalKind.bearish ∧
    ma_should_buy defaultMAParams gate_cex_indicators 105 = true := by
  with_unfolding_all decide

/-- C3 amended: `generate_signal` returns a BUY signal exactly when
`should_buy` holds (at least 60 percent of the seven conditions), and a SELL
signal exactly when `should_buy` fails and `should_sell` holds; the score
gate (primary signal bullish/bearish) enters only as two of the seven voting
conditions and is not independently required. -/
theorem c3_signal_gates (p : MAParams) (ind : Indicators) (current_price : ℚ)
    (n : ℕ) (hn : ma_required_periods p + 10 ≤ n) :
    ((∃ s, ma_generate_signal p n (ma_full_analysis p ind current_price) =
        some s ∧ s.side = OrderSide.buy) ↔
      ma_should_buy p ind current_price = true) ∧
    ((∃ s, ma_generate_signal p n (ma_full_analysis p ind current_price) =
        some s ∧ s.side = OrderSide.sell) ↔
      (ma_should_buy p ind current_price = false ∧
       ma_should_sell p ind current_price = true)) := by
  have hguard : ¬ n < ma_required_periods p + 10 := not_lt.mpr hn
  unfold ma_generate_signal ma_analyze
  rw [if_neg hguard]
  unfold ma_signal_of_ok ma_full_analysis
  cases hb : ma_should_buy p ind current_price <;>
    cases hsell : ma_should_sell p ind current_price <;>
      simp [hb, hsell]

/-- Witness for C3 amended at the default parameters, the counterexample
indicators, close 105 and window length 200. -/
theorem c3_signal_gates_witness :
    ((∃ s, ma_generate_signal defaultMAParams 200
        (ma_full_analysis defaultMAParams gate_cex_indicators 105) =
        some s ∧ s.side = OrderSide.buy) ↔
      ma_should_buy defaultMAParams gate_cex_indicators 105 = true) ∧
    ((∃ s, ma_generate_signal defaultMAParams 200
        (ma_full_analysis defaultMAParams gate_cex_indicators 105) =
        some s ∧ s.side = OrderSide.sell) ↔
      (ma_should_buy defaultMAParams gate_cex_indicators 105 = false ∧
       ma_should_sell defaultMAParams gate_cex_indicators 105 = true)) :=
  c3_signal_gates defaultMAParams gate_cex_indicators 105 200 (by decide)

/-- Six qualifying signals with pairwise-distinct
`strength × confidence` products, in scrambled input order. -/
def example_signals : List TradingSignal :=
  [{ symbol := "SOL/USDT", side := OrderSide.buy, strength := 9/10,
     confidence := 6/10 },
   { symbol := "BTC/USDT", side := OrderSide.buy, strength := 9/10,
     confidence := 9/10 },
   { symbol := "ADA/USDT", side := OrderSide.sell, strength := 5/10,
     confidence := 9/10 },
   { symbol := "ETH/USDT", side := OrderSide.buy, strength := 8/10,
     confidence := 9/10 },
   { symbol := "DOGE/USDT", side := OrderSide.sell, strength := 6/10,
     confidence := 6/10 },
   { symbol := "XRP/USDT", side := OrderSide.sell, strength := 7/10,
     confidence := 9/10 }]

/-- C4: the engine's signal filter keeps only signals whose symbol has no
in-flight order, returns them sorted by `strength × confidence` descending,
and keeps at most `max_concurrent_orders` minus the number of in-flight
orders; with the six qualifying `example_signals`, cap 5 and no in-flight
orders, exactly the five highest-product signals proceed, in descending
order of that product. -/
theorem c4_filter_prioritize :
    (∀ (active_orders : List EngineOrder) (max_concurrent_orders : ℕ)
       (signals : List TradingSignal),
      (∀ s ∈ filter_signals active_orders max_concurrent_orders signals,
        s ∈ signals ∧ ∀ o ∈ active_orders, o.symbol ≠ s.symbol) ∧
      List.Sorted signal_le
        (filter_signals active_orders max_concurrent_orders signals) ∧
      (filter_signals active_orders max_concurrent_orders signals).length ≤
        max_concurrent_orders - active_orders.length) ∧
    filter_signals [] 5 example_signals =
      [{ symbol := "BTC/USDT", side := OrderSide.buy, strength := 9/10,
         confidence := 9/10 },
       { symbol := "ETH/USDT", side := OrderSide.buy, strength := 8/10,
         confidence := 9/10 },
       { symbol := "XRP/USDT", side := OrderSide.sell, strength := 7/10,
         confidence := 9/10 },
       { symbol := "SOL/USDT", side := OrderSide.buy, strength := 9/10,
         confidence := 6/10 },
       { symbol := "ADA/USDT", side := OrderSide.sell, strength := 5/10,
         confidence := 9/10 }] := by
  constructor
  · intro active_orders max_concurrent_orders signals
    refine ⟨?_, ?_, ?_⟩
    · intro s hs
      simp only [filter_signals] at hs
      have hs1 := List.take_subset _ _ hs
      rw [List.mem_insertionSort, List.mem_filter] at hs1
      obtain ⟨h1, h2⟩ := hs1
      refine ⟨h1, fun o ho heq => ?_⟩
      exact (of_decide_eq_true h2) (heq ▸ List.mem_map_of_mem _ ho)
    · simp only [filter_signals]
      exact List.Pairwise.sublist (List.take_sublist _ _)
        (List.sorted_insertionSort signal_le _)
    · simp only [filter_signals]
      exact List.length_take_le _ _
  · with_unfolding_all decide

/-- Witness for C4: the top-ranked signal of the concrete scenario is one of
the input signals and no in-flight order shares its symbol. -/
theorem c4_filter_prioritize_witness :
    ({ symbol := "BTC/USDT", side := OrderSide.buy, strength := 9/10,
       confidence := 9/10 } : TradingSignal) ∈ example_signals ∧
    ∀ o ∈ ([] : List EngineOrder),
      o.symbol ≠ ({ symbol := "BTC/USDT", side := OrderSide.buy,
                    strength := 9/10,
                    confidence := 9/10 } : TradingSignal).symbol :=
  (c4_filter_prioritize.1 [] 5 example_signals).1
    { symbol := "BTC/USDT", side := OrderSide.buy, strength := 9/10,
      confidence := 9/10 }
    (by with_unfolding_all decide)

/-- C5: the engine places a closing order on an existing position only when
the signal opposes the position's side and its confidence strictly exceeds
0.7; an opposing signal with confidence at or below 0.7 causes no action and
leaves the position untouched. -/
theorem c5_close_threshold (signal : TradingSignal) (position : Position) :
    (handle_existing_position signal position = EngineAction.closePosition →
      ((position.side = OrderSide.buy ∧ signal.side = OrderSide.sell) ∨
       (position.side = OrderSide.sell ∧ signal.side = OrderSide.buy)) ∧
      7/10 < signal.confidence) ∧
    (((position.side = OrderSide.buy ∧ signal.side = OrderSide.sell) ∨
      (position.side = OrderSide.sell ∧ signal.side = OrderSide.buy)) →
      signal.confidence ≤ 7/10 →
      handle_existing_position signal position = EngineAction.noAction) := by
  constructor
  · intro h
    unfold handle_existing_position at h
    split_ifs at h with h1 h2
    · exact ⟨h1, h2⟩
  · intro h1 h2
    unfold handle_existing_position
    rw [if_pos h1, if_neg (not_lt.mpr h2)]

/-- Witness for C5: an existing long position and an opposing SELL signal
with confidence 0.65 produce no action. -/
theorem c5_close_threshold_witness :
    handle_existing_position
      { symbol := "BTC/USDT", side := OrderSide.sell, strength := 4/5,
        confidence := 13/20 }
      { symbol := "BTC/USDT", side := OrderSide.buy, size := 1/5,
        entry_price := 50000, market_price := 50000, unrealized_pnl := 0,
        exchange := "binance", timestamp := 0 } = EngineAction.noAction :=
  (c5_close_threshold
    { symbol := "BTC/USDT", side := OrderSide.sell, strength := 4/5,
      confidence := 13/20 }
    { symbol := "BTC/USDT", side := OrderSide.buy, size := 1/5,
      entry_price := 50000, market_price := 50000, unrealized_pnl := 0,
      exchange := "binance", timestamp := 0 }).2
    (Or.inl ⟨rfl, rfl⟩) (by norm_num)

/-- C6: for both strategy variants, any window with fewer than the required
number of bars (maximum configured indicator lookback plus a margin of 10)
makes `analyze` return the explicit insufficient-data marker — carrying the
required and available counts, never partial values, never an exception —
and makes `generate_signal` return none. -/
theorem c6_insufficient_data (p : MAParams) (q : RSIParams) (n m : ℕ)
    (fa : MAAnalysisOk) (fr : RSIAnalysisOk)
    (hn : n < ma_required_periods p + 10) (hm : m < rsi_required_periods q) :
    ma_analyze p n fa =
      Except.error { required_periods := ma_required_periods p + 10,
                     available_periods := n } ∧
    ma_generate_signal p n fa = none ∧
    rsi_analyze q m fr =
      Except.error { required_periods := rsi_required_periods q,
                     available_periods := m } ∧
    rsi_generate_signal q m fr = none := by
  refine ⟨?_, ?_, ?_, ?_⟩ <;>
    simp [ma_analyze, rsi_analyze, ma_generate_signal, rsi_generate_signal,
      hn, hm]

/-- Witness for C6 at the default parameters: 10 bars for the
trend-confluence variant (36 required) and 5 bars for the RSI variant
(60 required). -/
theorem c6_insufficient_data_witness :
    ma_analyze defaultMAParams 10
        { buy_signal := false, sell_signal := false,
          signal := SignalKind.neutral, signal_strength := 0,
          bullish_score := 0, bearish_score := 0 } =
      Except.error { required_periods := ma_required_periods defaultMAParams + 10,
                     available_periods := 10 } ∧
    ma_generate_signal defaultMAParams 10
        { buy_signal := false, sell_signal := false,
          signal := SignalKind.neutral, signal_strength := 0,
          bullish_score := 0, bearish_score := 0 } = none ∧
    rsi_analyze defaultRSIParams 5
        { buy_signal := false, sell_signal := false, signal_strength := 0 } =
      Except.error { required_periods := rsi_required_periods defaultRSIParams,
                     available_periods := 5 } ∧
    rsi_generate_signal defaultRSIParams 5
        { buy_signal := false, sell_signal := false, signal_strength := 0 } =
      none :=
  c6_insufficient_data defaultMAParams defaultRSIParams 10 5
    { buy_signal := false, sell_signal := false,
      signal := SignalKind.neutral, signal_strength := 0,
      bullish_score := 0, bearish_score := 0 }
    { buy_signal := false, sell_signal := false, signal_strength := 0 }
    (by decide) (by decide)

/-- Twelve price bars whose last ten contain two 5-point local lows (1 then
0, a lower low) — shorter than `divergence_lookback + min_divergence_bars`. -/
def short_div_closes : List ℚ := [9, 9, 5, 4, 1, 4, 5, 4, 0, 4, 5, 5]

/-- Matching RSI series whose last ten contain two local lows (20 then 25, a
higher low). -/
def short_div_rsi : List ℚ := [50, 50, 50, 40, 20, 40, 50, 40, 25, 40, 50, 50]

/-- The same shape padded to fifteen bars, long enough to pass the length
guard of the divergence detectors. -/
def long_div_closes : List ℚ :=
  [9, 9, 9, 9, 9, 5, 4, 1, 4, 5, 4, 0, 4, 5, 5]

/-- Matching fifteen-bar RSI series. -/
def long_div_rsi : List ℚ :=
  [50, 50, 50, 50, 50, 50, 40, 20, 40, 50, 40, 25, 40, 50, 50]

/-- Counterexample to C7 as stated: on the twelve-bar
`short_div_closes` / `short_div_rsi` pair, both series have two local lows
inside the ten-bar lookback window and the bullish pattern (lower price low,
higher RSI low) holds, yet the detector returns false — the source guard
`len(data) < divergence_lookback + min_divergence_bars` (12 < 15) fires
first, which the claim's biconditional does not allow for. -/
theorem c7_divergence_cex :
    2 ≤ (localLows (tailN 10 short_div_closes)).length ∧
    2 ≤ (localLows (tailN 10 short_div_rsi)).length ∧
    ((localLows (tailN 10 short_div_closes)).getD
        ((localLows (tailN 10 short_div_closes)).length - 1) 0 <
      (localLows (tailN 10 short_div_closes)).getD
        ((localLows (tailN 10 short_div_closes)).length - 2) 0) ∧
    ((localLows (tailN 10 short_div_rsi)).getD
        ((localLows (tailN 10 short_div_rsi)).length - 1) 0 >
      (localLows (tailN 10 short_div_rsi)).getD
        ((localLows (tailN 10 short_div_rsi)).length - 2) 0) ∧
    detect_bullish_divergence defaultRSIParams short_div_closes short_div_rsi =
      false := by
  with_unfolding_all decide

/-- C7 amended: with fewer than 2 local extrema (5-point windows) in the
lookback window on either series the detectors return false; and — provided
the series is at least `divergence_lookback + min_divergence_bars` bars long,
which the claim omitted — when both series have at least 2 extrema, bullish
divergence holds iff price made a strictly lower low while RSI made a
strictly higher low, and bearish divergence holds iff price made a strictly
higher high while RSI made a strictly lower high. -/
theorem c7_divergence_extrema (q : RSIParams) (closes rsi : List ℚ) :
    (((localLows (tailN q.divergence_lookback closes)).length < 2 ∨
      (localLows (tailN q.divergence_lookback rsi)).length < 2) →
      detect_bullish_divergence q closes rsi = false) ∧
    (q.divergence_lookback + q.min_divergence_bars ≤ closes.length →
      2 ≤ (localLows (tailN q.divergence_lookback closes)).length →
      2 ≤ (localLows (tailN q.divergence_lookback rsi)).length →
      (detect_bullish_divergence q closes rsi = true ↔
        ((localLows (tailN q.divergence_lookback closes)).getD
            ((localLows (tailN q.divergence_lookback closes)).length - 1) 0 <
          (localLows (tailN q.divergence_lookback closes)).getD
            ((localLows (tailN q.divergence_lookback closes)).length - 2) 0 ∧
         (localLows (tailN q.divergence_lookback rsi)).getD
            ((localLows (tailN q.divergence_lookback rsi)).length - 1) 0 >
          (localLows (tailN q.divergence_lookback rsi)).getD
            ((localLows (tailN q.divergence_lookback rsi)).length - 2) 0))) ∧
    (((localHighs (tailN q.divergence_lookback closes)).length < 2 ∨
      (localHighs (tailN q.divergence_lookback rsi)).length < 2) →
      detect_bearish_divergence q closes rsi = false) ∧
    (q.divergence_lookback + q.min_divergence_bars ≤ closes.length →
      2 ≤ (localHighs (tailN q.divergence_lookback closes)).length →
      2 ≤ (localHighs (tailN q.divergence_lookback rsi)).length →
      (detect_bearish_divergence q closes rsi = true ↔
        ((localHighs (tailN q.divergence_lookback closes)).getD
            ((localHighs (tailN q.divergence_lookback closes)).length - 1) 0 >
          (localHighs (tailN q.divergence_lookback closes)).getD
            ((localHighs (tailN q.divergence_lookback closes)).length - 2) 0 ∧
         (localHighs (tailN q.divergence_lookback rsi)).getD
            ((localHighs (tailN q.divergence_lookback rsi)).length - 1) 0 <
          (localHighs (tailN q.divergence_lookback rsi)).getD
            ((localHighs (tailN q.divergence_lookback rsi)).length - 2) 0))) := by
  refine ⟨?_, ?_, ?_, ?_⟩
  · intro h
    simp only [detect_bullish_divergence]
    by_cases hg : closes.length <
        q.divergence_lookback + q.min_divergence_bars
    · rw [if_pos hg]
    · rw [if_neg hg,
        if_neg (by rintro ⟨hA, hB⟩; rcases h with h | h <;> omega)]
  · intro hlen h2 h3
    simp only [detect_bullish_divergence]
    rw [if_neg (not_lt.mpr hlen), if_pos ⟨h2, h3⟩]
    simp only [Bool.and_eq_true, decide_eq_true_eq]
  · intro h
    simp only [detect_bearish_divergence]
    by_cases hg : closes.length <
        q.divergence_lookback + q.min_divergence_bars
    · rw [if_pos hg]
    · rw [if_neg hg,
        if_neg (by rintro ⟨hA, hB⟩; rcases h with h | h <;> omega)]
  · intro hlen h2 h3
    simp only [detect_bearish_divergence]
    rw [if_neg (not_lt.mpr hlen), if_pos ⟨h2, h3⟩]
    simp only [Bool.and_eq_true, decide_eq_true_eq]

/-- Witness for C7 amended: on the fifteen-bar pair the length guard passes,
both series have two local lows, and the biconditional holds. -/
theorem c7_divergence_extrema_witness :
    detect_bullish_divergence defaultRSIParams long_div_closes long_div_rsi =
        true ↔
      ((localLows (tailN defaultRSIParams.divergence_lookback
            long_div_closes)).getD
          ((localLows (tailN defaultRSIParams.divergence_lookback
            long_div_closes)).length - 1) 0 <
        (localLows (tailN defaultRSIParams.divergence_lookback
            long_div_closes)).getD
          ((localLows (tailN defaultRSIParams.divergence_lookback
            long_div_closes)).length - 2) 0 ∧
       (localLows (tailN defaultRSIParams.divergence_lookback
            long_div_rsi)).getD
          ((localLows (tailN defaultRSIParams.divergence_lookback
            long_div_rsi)).length - 1) 0 >
        (localLows (tailN defaultRSIParams.divergence_lookback
            long_div_rsi)).getD
          ((localLows (tailN defaultRSIParams.divergence_lookback
            long_div_rsi)).length - 2) 0) :=
  (c7_divergence_extrema defaultRSIParams long_div_closes long_div_rsi).2.1
    (by decide) (by with_unfolding_all decide) (by with_unfolding_all decide)

/-- Counterexample to C8 as stated: on a window of twenty zero volumes the
20-period average volume is exactly zero, and the trend-confluence variant's
unguarded pandas division yields a non-finite value (`none`), not the
neutral 1.0 the claim asserts for both variants. -/
theorem c8_zero_volume_cex :
    sma_last 20 (List.replicate 20 (0 : ℚ)) = some 0 ∧
    ma_volume_rel (List.replicate 20 (0 : ℚ)) = none ∧
    ma_volume_rel (List.replicate 20 (0 : ℚ)) ≠ some 1 := by
  refine ⟨?_, ?_, ?_⟩ <;> with_unfolding_all decide

/-- C8 amended: when the 20-period average volume is zero, the RSI variant's
guard defines the volume quotient as the neutral 1.0 (no division occurs);
the trend-confluence variant performs the division unguarded and produces a
non-finite value instead of 1.0. -/
theorem c8_zero_volume (volumes : List ℚ)
    (h : sma_last 20 volumes = some 0) :
    (rsi_volume_info volumes).1 = 1 ∧ ma_volume_rel volumes = none := by
  constructor
  · unfold rsi_volume_info
    rw [h]
    norm_num
  · unfold ma_volume_rel
    rw [h]
    norm_num

/-- Witness for C8 amended on twenty zero volumes. -/
theorem c8_zero_volume_witness :
    (rsi_volume_info (List.replicate 20 (0 : ℚ))).1 = 1 ∧
    ma_volume_rel (List.replicate 20 (0 : ℚ)) = none :=
  c8_zero_volume (List.replicate 20 (0 : ℚ)) (by with_unfolding_all decide)

/-- C9: an exception in any part of one trading-loop iteration is caught and
never propagates: the loop's entire behaviour (iteration count and exit
reason) is independent of which iterations raise, and the loop exits through
its condition check only at the first point where the running flag is
false — every earlier check saw the flag true. -/
theorem c9_loop_resilience :
    (∀ (fuel : ℕ) (running : ℕ → Bool) (o o' : ℕ → IterOutcome),
      trading_loop fuel running o = trading_loop fuel running o') ∧
    (∀ (fuel : ℕ) (running : ℕ → Bool) (o : ℕ → IterOutcome) (n : ℕ),
      trading_loop fuel running o = (n, true) →
      running n = false ∧ ∀ k, k < n → running k = true) := by
  constructor
  · intro fuel
    induction fuel with
    | zero => intro running o o'; rfl
    | succ m ih =>
      intro running o o'
      unfold trading_loop
      by_cases h : running 0 = true
      · rw [if_pos h, if_pos h]
        cases iteration_result (o 0) <;> cases iteration_result (o' 0) <;>
          rw [ih (fun k => running (k + 1)) (fun k => o (k + 1))
            (fun k => o' (k + 1))]
      · rw [if_neg h, if_neg h]
  · intro fuel
    induction fuel with
    | zero =>
      intro running o n h
      simp [trading_loop] at h
    | succ m ih =>
      intro running o n h
      unfold trading_loop at h
      by_cases hr : running 0 = true
      · rw [if_pos hr] at h
        have harms : (match iteration_result (o 0) with
            | Except.ok _ =>
              trading_loop m (fun k => running (k + 1)) (fun k => o (k + 1))
            | Except.error _ =>
              trading_loop m (fun k => running (k + 1)) (fun k => o (k + 1)))
            = trading_loop m (fun k => running (k + 1)) (fun k => o (k + 1)) := by
          cases iteration_result (o 0) <;> rfl
        rw [harms, Prod.mk.injEq] at h
        have hT : trading_loop m (fun k => running (k + 1))
            (fun k => o (k + 1)) =
            ((trading_loop m (fun k => running (k + 1))
              (fun k => o (k + 1))).1, true) := by
          rw [← h.2]
        have hprev := ih (fun k => running (k + 1)) (fun k => o (k + 1))
          (trading_loop m (fun k => running (k + 1)) (fun k => o (k + 1))).1 hT
        refine ⟨by rw [← h.1]; exact hprev.1, ?_⟩
        intro k hk
        rw [← h.1] at hk
        cases k with
        | zero => exact hr
        | succ j => exact hprev.2 j (by omega)
      · rw [if_neg hr, Prod.mk.injEq] at h
        obtain ⟨h0, _⟩ := h
        subst h0
        exact ⟨by simpa using hr, fun k hk => absurd hk (by omega)⟩

/-- A running flag that goes false at the third check. -/
def stop_after_two : ℕ → Bool := fun k => decide (k < 2)

/-- An iteration body that raises on every iteration. -/
def always_err : ℕ → IterOutcome := fun _ => IterOutcome.err "boom"

/-- Witness for C9: with the flag lowering at the third check and every
iteration raising, the loop still runs exactly two iterations and exits
through the flag check. -/
theorem c9_loop_resilience_witness :
    stop_after_two 2 = false ∧ ∀ k, k < 2 → stop_after_two k = true :=
  c9_loop_resilience.2 3 stop_after_two always_err 2 (by decide)

/-- C10: `trading_engine.py` binds neither `Trade` nor `Decimal` at module
level, while the body of `_process_trade_for_position` references `Decimal`
(and its line-426 parameter carries the unbound name `Trade`, which under
eager annotation evaluation already fails at import); consequently every
invocation of the trade-folding path raises `NameError`, the function's own
`except Exception` handler swallows it, and folding exchange trade history
never creates or modifies any position slot. -/
theorem c10_missing_imports :
    "Trade" ∉ trading_engine_module_names ∧
    "Decimal" ∉ trading_engine_module_names ∧
    "Decimal" ∈ process_trade_body_globals ∧
    resolves_in_module process_trade_body_globals = false ∧
    ∀ (st : Option Position) (t : Trade), process_trade_runtime st t = st := by
  refine ⟨by decide, by decide, by decide, by decide, ?_⟩
  intro st t
  unfold process_trade_runtime
  rw [show resolves_in_module process_trade_body_globals = false by decide]
  rfl

end SystemTrading
